import Mathlib

/-!
Verification development for the moltbot-sandbox control plane
(`src/backend/server.py`).  The Python source is shallowly embedded:
each relevant Python function becomes a pure Lean function over an
explicit state, with external collaborators (the process supervisor,
the readiness probe, the token generator, the LLM client, the Telegram
API, the wall clock) supplied as oracle parameters in an environment
record.  Database collections become fields of a `Db` record, and
MongoDB operations (`find_one`, `update_one` with/without `upsert`,
`$setOnInsert`, `insert_one`) are modelled by their single-document
semantics on those fields.
-/

namespace Moltbot

/-- Python truthiness for an optional string: `None` and `""` are falsy. -/
def pyTruthy : Option String → Bool
  | none => false
  | some s => !s.isEmpty

/-- Python `a or b` on optional strings: yields `a` when truthy, else `b`. -/
def pyStrOr (a b : Option String) : Option String :=
  match a with
  | some s => if s.isEmpty then b else some s
  | none => b

/-- A user document from the `users` collection. -/
structure User where
  user_id : String
  email : String
  name : String
deriving DecidableEq, Repr

/-- A Python `datetime`: a wall-clock reading in seconds plus an optional
UTC offset in seconds (`none` models a naive datetime with `tzinfo is None`). -/
structure PyDatetime where
  wall : Int
  tzOffset : Option Int
deriving DecidableEq, Repr

/-- The absolute instant (seconds since epoch) of an aware datetime;
for the normalized values produced by the session guard the offset is
always present, `getD 0` only totalizes the function. -/
def PyDatetime.absSeconds (d : PyDatetime) : Int :=
  d.wall - d.tzOffset.getD 0

/-- How a session's `expires_at` is stored in the database: either a BSON
datetime or an ISO-8601 string; `isoStr d` carries the datetime the string
parses to via `datetime.fromisoformat` (which preserves both the wall-clock
value and the presence/absence of an offset). -/
inductive StoredExpiry where
  | dt (d : PyDatetime)
  | isoStr (d : PyDatetime)
deriving DecidableEq, Repr

/-- The expiry normalization in `get_current_user` (server.py:183-187):
an ISO string is parsed back to a datetime, then a naive value gets
`tzinfo=timezone.utc` attached, i.e. its wall-clock reading is taken as UTC. -/
def normalizeExpiry (e : StoredExpiry) : PyDatetime :=
  let d := match e with
    | .dt d => d
    | .isoStr d => d
  if d.tzOffset = none then { d with tzOffset := some 0 } else d

/-- Spec-side meaning of a stored expiry (from the claim's words, independent
of the code path): the absolute UTC instant it denotes, with naive values
interpreted as UTC. -/
def StoredExpiry.utcInstant : StoredExpiry → Int
  | .dt d => d.wall - d.tzOffset.getD 0
  | .isoStr d => d.wall - d.tzOffset.getD 0

/-- A session document from the `user_sessions` collection. -/
structure Session where
  session_token : String
  user_id : String
  expires_at : StoredExpiry
deriving DecidableEq, Repr

/-- The singleton instance-owner document (`instance_config`, id
`"instance_owner"`). -/
structure InstanceOwner where
  user_id : String
  email : String
  name : String
  locked_at : Int
deriving DecidableEq, Repr

/-- The singleton durable gateway document (`moltbot_configs`, id
`"gateway_config"`); it is only ever created by the start path's `$set`
upsert, which writes every field, so all fields are present. -/
structure DurableRecord where
  should_run : Bool
  owner_user_id : String
  provider : String
  token : String
  started_at : String
  updated_at : String
deriving DecidableEq, Repr

/-- A chat message document (`chat_messages`); `created_at` is stored as an
ISO string whose lexicographic order agrees with time order, modelled as an
epoch number. -/
structure ChatMessage where
  user_email : String
  role : String
  content : String
  created_at : Int
deriving DecidableEq, Repr

/-- A digest history document (`digest_history`). -/
structure DigestRecord where
  user_email : String
  content : String
  message_count : Nat
  telegram_sent : Bool
  sent_at : String
deriving DecidableEq, Repr

/-- The metadata store: one field per collection used by the claims. -/
structure Db where
  instanceOwner : Option InstanceOwner
  gatewayRecord : Option DurableRecord
  sessions : List Session
  users : List User
  chatMessages : List ChatMessage
  digestHistory : List DigestRecord
deriving DecidableEq, Repr

/-- The in-memory `gateway_state` dict (server.py:53-58). -/
structure GatewayState where
  token : Option String
  provider : Option String
  started_at : Option String
  owner_user_id : Option String
deriving DecidableEq, Repr

/-- The boot value of `gateway_state`: every field `None`. -/
def GatewayState.init : GatewayState :=
  { token := none, provider := none, started_at := none, owner_user_id := none }

/-- The on-disk `clawdbot.json` as far as the claims observe it: the
`gateway.auth.token` field, plus the provider whose catalog sections were
last merged in (standing in for the model/agent sections, which no claim
reads).  The file as a whole is `Option ConfigFile`: `none` models a missing
or unparsable file, which `create_moltbot_config` treats as an empty base. -/
structure ConfigFile where
  gatewayToken : Option String
  provider : Option String
deriving DecidableEq, Repr

/-- Mutable world state threaded through the gateway operations:
in-memory state, database, the on-disk config file, and whether the
supervisor env hand-off file is currently written. -/
structure World where
  gatewayState : GatewayState
  db : Db
  disk : Option ConfigFile
  envFile : Bool
deriving DecidableEq, Repr

/-- An HTTPException raised by an endpoint. -/
structure HTTPError where
  status : Nat
  detail : String
deriving DecidableEq, Repr

/-- Calls made to the process-supervisor adapter, recorded as a trace. -/
inductive SupCall where
  | start
  | stop
  | status
  | reloadConfig
deriving DecidableEq, Repr

/-- Oracle environment for one gateway operation: results of the external
collaborators.  `supStatus` is the supervisor's `status()` answer (the code
may query it more than once inside one request; execution is single-task
with no interleaving between those reads, so one value is faithful),
`probe i` is whether the `i`-th readiness poll of the local gateway port
returns HTTP 200, `freshToken` is the `secrets.token_hex(32)` output,
`now` the current timestamp rendered as the code stores it. -/
structure Env where
  supStatus : Bool
  supStartOk : Bool
  supStopOk : Bool
  supStatusAfterWait : Bool
  clawdbotCmd : Bool
  installOk : Bool
  clawdbotCmdAfterInstall : Bool
  dbReadOk : Bool
  probe : Nat → Bool
  freshToken : String
  now : String

/-- The `max_wait = 60` second readiness window of `start_gateway_process`,
polled at 1-second spacing: the first of 60 polls that answers 200. -/
def firstReady (probe : Nat → Bool) : Option Nat :=
  (List.range 60).find? probe

-- ============== Config materializer (create_moltbot_config) ==============

/-- Embedding of `create_moltbot_config` (server.py:420-646), restricted to
the state the claims observe: token resolution and the file write.  Token
resolution follows the source exactly, including Python string truthiness:
`existing_token` is the on-disk `gateway.auth.token` unless
`force_new_token`; `final_token = existing_token or token or
generate_token()`.  The merged provider catalogs are abstracted into the
`provider` field of the written file; the whole tree is rewritten with
`gateway.auth.token = final_token`.  Returns the token in effect and the
file written. -/
def createMoltbotConfig (disk : Option ConfigFile) (fresh : String)
    (token : Option String) (provider : String) (forceNewToken : Bool) :
    String × ConfigFile :=
  let existingToken : Option String :=
    if forceNewToken then none
    else disk.bind (fun c => c.gatewayToken)
  let finalToken : String :=
    (pyStrOr (pyStrOr existingToken token) (some fresh)).getD fresh
  (finalToken, { gatewayToken := some finalToken, provider := some provider })

-- ============== Instance owner & session guard ==============

/-- Embedding of `set_instance_owner` (server.py:128-141): an
`update_one` with `$setOnInsert` and `upsert=True` on the singleton
`instance_owner` document — inserts when absent, changes nothing when
present. -/
def setInstanceOwner (cur : Option InstanceOwner) (u : User) (now : Int) :
    Option InstanceOwner :=
  match cur with
  | some o => some o
  | none => some { user_id := u.user_id, email := u.email, name := u.name,
                   locked_at := now }

/-- Embedding of `check_instance_access` (server.py:144-150). -/
def checkInstanceAccess (db : Db) (u : User) : Bool :=
  match db.instanceOwner with
  | none => true
  | some o => o.user_id == u.user_id

/-- An inbound HTTP request as the session guard reads it: the
`session_token` cookie and the `Authorization` header. -/
structure HttpRequest where
  cookieSessionToken : Option String
  authHeader : Option String
deriving DecidableEq, Repr

/-- Credential extraction of `get_current_user` (server.py:159-171):
cookie first, then a `Bearer ` Authorization header, whose token is
`split(" ")[1]`. -/
def extractSessionToken (req : HttpRequest) : Option String :=
  if pyTruthy req.cookieSessionToken then req.cookieSessionToken
  else
    match req.authHeader with
    | some h => if h.startsWith "Bearer " then (h.splitOn " ")[1]? else none
    | none => none

/-- Embedding of `get_current_user` (server.py:153-201): resolve the
credential, look up the session, normalize and compare the expiry, look up
the user. -/
def getCurrentUser (db : Db) (req : HttpRequest) (now : Int) : Option User :=
  let tok := extractSessionToken req
  if !pyTruthy tok then none
  else
    match db.sessions.find? (fun s => s.session_token == tok.getD "") with
    | none => none
    | some sess =>
      if (normalizeExpiry sess.expires_at).absSeconds < now then none
      else
        match db.users.find? (fun u => u.user_id == sess.user_id) with
        | none => none
        | some u => some u

/-- Embedding of `require_auth` (server.py:204-217). -/
def requireAuth (db : Db) (req : HttpRequest) (now : Int) :
    Except HTTPError User :=
  match getCurrentUser db req now with
  | none => .error { status := 401, detail := "Not authenticated" }
  | some u =>
    if checkInstanceAccess db u then .ok u
    else .error { status := 403, detail := "This instance is locked to another user. Access denied." }

-- ============== Gateway lifecycle ==============

/-- Embedding of `start_gateway_process` (server.py:649-756).  Two paths:
if the supervisor already reports the process running, recover the token
from the on-disk config (generating and force-writing a fresh one when the
file has none), repopulate `gateway_state`, upsert the durable record with
`should_run=True` and return.  Otherwise ensure the gateway binary exists,
materialize the config (reusing any on-disk token), write the supervisor
env hand-off, ask the supervisor to start, populate `gateway_state`, and
poll the local port for up to 60 one-second attempts; on a 200 the durable
record is upserted with `should_run=True` and the token returned, and on
exhaustion an HTTP 500 is raised with the durable record untouched and the
in-memory fields left as the attempt set them. -/
def startGatewayProcess (env : Env) (w : World) (apiKey : Option String)
    (provider : String) (ownerUserId : String) :
    Except HTTPError String × World × List SupCall :=
  if env.supStatus then
    -- already running: recover state instead of starting
    let fileToken : Option String := w.disk.bind (fun c => c.gatewayToken)
    let (token, disk1) :=
      if pyTruthy fileToken then (fileToken.getD "", w.disk)
      else
        -- token = generate_token(); create_moltbot_config(..., force_new_token=True)
        (env.freshToken,
         some (createMoltbotConfig w.disk env.freshToken (some env.freshToken)
                provider true).2)
    let gs : GatewayState :=
      { token := some token, provider := some provider,
        started_at := some env.now, owner_user_id := some ownerUserId }
    let recd : DurableRecord :=
      { should_run := true, owner_user_id := ownerUserId, provider := provider,
        token := token, started_at := env.now, updated_at := env.now }
    (.ok token,
     { w with gatewayState := gs, disk := disk1,
              db := { w.db with gatewayRecord := some recd } },
     [.status])
  else if !env.clawdbotCmd && !env.installOk then
    (.error { status := 500,
              detail := "OpenClaw (clawdbot) is not installed. Please contact support." },
     w, [.status])
  else if !env.clawdbotCmd && !env.clawdbotCmdAfterInstall then
    (.error { status := 500, detail := "Failed to find clawdbot after installation" },
     w, [.status])
  else
    -- create config (token=None, force_new_token=False: reuses on-disk token)
    let (token, disk1) := createMoltbotConfig w.disk env.freshToken none provider false
    -- write_gateway_env(token, api_key, provider)
    let w1 : World := { w with disk := some disk1, envFile := true }
    if !env.supStartOk then
      (.error { status := 500, detail := "Failed to start gateway via supervisor" },
       w1, [.status, .start])
    else
      let gs : GatewayState :=
        { token := some token, provider := some provider,
          started_at := some env.now, owner_user_id := some ownerUserId }
      let w2 : World := { w1 with gatewayState := gs }
      match firstReady env.probe with
      | some _ =>
        let recd : DurableRecord :=
          { should_run := true, owner_user_id := ownerUserId,
            provider := provider, token := token,
            started_at := env.now, updated_at := env.now }
        (.ok token, { w2 with db := { w2.db with gatewayRecord := some recd } },
         [.status, .start])
      | none =>
        if !env.supStatusAfterWait then
          (.error { status := 500, detail := "Gateway failed to start via supervisor" },
           w2, [.status, .start, .status])
        else
          (.error { status := 500, detail := "Gateway did not become ready in time" },
           w2, [.status, .start, .status])

/-- The 403 conflict error of the start endpoint (server.py:784-788). -/
def ownershipConflictError : HTTPError :=
  { status := 403,
    detail := "OpenClaw is already running by another user. Please wait for them to stop it." }

/-- Embedding of the `POST /api/openclaw/start` endpoint `start_moltbot`
(server.py:771-807): authenticate, validate provider and API key, reject
with a 403 conflict when the supervisor reports the gateway running and the
in-memory owner differs from the requester, otherwise run the start
sequence and latch the instance owner on success. -/
def startMoltbot (env : Env) (w : World) (req : HttpRequest) (now : Int)
    (provider : String) (apiKey : Option String) :
    Except HTTPError String × World × List SupCall :=
  match requireAuth w.db req now with
  | .error e => (.error e, w, [])
  | .ok user =>
    if !(provider == "emergent" || provider == "anthropic" || provider == "openai") then
      (.error { status := 400,
                detail := "Invalid provider. Use 'emergent', 'anthropic', or 'openai'" },
       w, [])
    else if (provider == "anthropic" || provider == "openai")
        && (!pyTruthy apiKey || (apiKey.getD "").length < 10) then
      (.error { status := 400, detail := "API key required for anthropic/openai providers" },
       w, [])
    else if env.supStatus && !(w.gatewayState.owner_user_id == some user.user_id) then
      (.error ownershipConflictError, w, [.status])
    else
      match startGatewayProcess env w apiKey provider user.user_id with
      | (.ok token, w1, calls) =>
        let db1 := { w1.db with
                     instanceOwner := setInstanceOwner w1.db.instanceOwner user now }
        (.ok token, { w1 with db := db1 }, .status :: calls)
      | (.error e, w1, calls) => (.error e, w1, .status :: calls)

/-- The `should_run`-clearing database write shared by both stop branches
(server.py:846-849 and 864-867): an `update_one` with `$set` and no
`upsert`, so it modifies an existing `gateway_config` document and is a
no-op when none exists. -/
def clearShouldRun (now : String) (db : Db) : Db :=
  let f := fun (r : DurableRecord) => { r with should_run := false, updated_at := now }
  { db with gatewayRecord := db.gatewayRecord.map f }

/-- Embedding of the `POST /api/openclaw/stop` endpoint `stop_moltbot`
(server.py:837-875): authenticate; when the supervisor reports the gateway
not running, clear the durable `should_run` flag (an `update_one` without
upsert: a no-op when no document exists) and report success; when running,
reject non-owners with 403, otherwise call the supervisor's stop (failures
only logged), clear the env hand-off file, clear `should_run`, and reset
every in-memory field to `None`. -/
def stopMoltbot (env : Env) (w : World) (req : HttpRequest) (now : Int) :
    Except HTTPError String × World × List SupCall :=
  match requireAuth w.db req now with
  | .error e => (.error e, w, [])
  | .ok user =>
    if !env.supStatus then
      (.ok "OpenClaw is not running",
       { w with db := clearShouldRun env.now w.db }, [.status])
    else if !(w.gatewayState.owner_user_id == some user.user_id) then
      (.error { status := 403, detail := "Only the owner can stop OpenClaw" }, w, [.status])
    else
      (.ok "OpenClaw stopped",
       { w with db := clearShouldRun env.now w.db, envFile := false,
                gatewayState := GatewayState.init },
       [.status, .stop])

/-- The `should_run` reading used at boot (server.py:2365):
`config_doc.get("should_run", False) if config_doc else False`. -/
def effectiveShouldRun (db : Db) : Bool :=
  (db.gatewayRecord.map (fun r => r.should_run)).getD false

/-- Embedding of the boot-time reconciliation in `startup_event`
(server.py:2341-2427), the part that aligns gateway state with durable
intent.  Reload the supervisor config; read the durable record (a failed
read is caught and treated as no record); if the supervisor reports the
gateway running, adopt it (provider/owner/started_at from the record,
token from the on-disk config file) without touching the process; else if
`should_run` and a record exists, rewrite the env hand-off and ask the
supervisor to start, populating in-memory state on success and leaving it
untouched (boot continues) on failure; else do nothing. -/
def startupEvent (env : Env) (w : World) : World × List SupCall :=
  let configDoc : Option DurableRecord :=
    if env.dbReadOk then w.db.gatewayRecord else none
  let shouldRun : Bool := (configDoc.map (fun r => r.should_run)).getD false
  if env.supStatus then
    let gs0 := { w.gatewayState with
                 provider := some ((configDoc.map (fun r => r.provider)).getD "emergent") }
    let gs1 := match w.disk with
      | some f => { gs0 with token := f.gatewayToken }
      | none => gs0
    let gs2 := match configDoc with
      | some r => { gs1 with owner_user_id := some r.owner_user_id,
                             started_at := some r.started_at }
      | none => gs1
    ({ w with gatewayState := gs2 }, [.reloadConfig, .status])
  else
    match configDoc with
    | some r =>
      if shouldRun then
        let token : Option String :=
          if pyTruthy (some r.token) then some r.token
          else match w.disk with
            | some f => f.gatewayToken
            | none => some env.freshToken
        let w1 : World := { w with envFile := true }
        if env.supStartOk then
          let gs : GatewayState :=
            { token := token, provider := some r.provider,
              owner_user_id := some r.owner_user_id,
              started_at := some r.started_at }
          ({ w1 with gatewayState := gs }, [.reloadConfig, .status, .start])
        else
          (w1, [.reloadConfig, .status, .start])
      else
        (w, [.reloadConfig, .status])
    | none => (w, [.reloadConfig, .status])

-- ============== WebSocket proxy ==============

/-- An inbound WebSocket connection request as seen by the proxy handler:
it carries the client's cookies and headers (so a session credential may be
present), which the handler is free to inspect — the embedding shows it
never does. -/
structure WsRequest where
  cookieSessionToken : Option String
  authHeader : Option String
deriving DecidableEq, Repr

/-- Outcome of the WebSocket proxy handler: either the socket is accepted
then closed with a code and reason, or an upstream connection to
`ws://127.0.0.1:18789/` is opened carrying the given optional
`X-Auth-Token` header and the duplex relay runs. -/
inductive WsOutcome where
  | closed (code : Nat) (reason : String)
  | proxied (xAuthToken : Option String)
deriving DecidableEq, Repr

/-- Embedding of the `websocket_proxy` endpoint (server.py:1028-1112),
up to the relay loops: accept unconditionally, close with 1013 when the
supervisor reports the gateway not running, otherwise connect upstream
with the in-memory token attached as `X-Auth-Token` when one is set.
`running` is the `check_gateway_running()` supervisor answer. -/
def websocketProxy (running : Bool) (gs : GatewayState) (req : WsRequest) :
    WsOutcome :=
  if !running then .closed 1013 "OpenClaw not running"
  else
    let token := gs.token
    if pyTruthy token then .proxied token else .proxied none

-- ============== Daily digest ==============

/-- Oracle environment for one digest run: the LLM client's answer
(`none` models a raised exception, caught and turned into `None` at
server.py:2210-2212), the paired Telegram chat id read from the
credentials file, the Telegram API delivery outcome, and the clock. -/
structure DigestEnv where
  llmSummary : Option String
  pairedTelegramId : Option String
  telegramSendOk : Bool
  now : Int
  nowStr : String

/-- The digest message header (server.py:2224). -/
def digestHeader (dateStr : String) : String :=
  "*Good morning! Here's your Neo digest for " ++ dateStr ++ ":*\n\n"

/-- The messages gathered for a digest (server.py:2175-2178): the user's
chat messages whose `created_at` lies in the last 24 hours. -/
def digestMessages (db : Db) (now : Int) (userEmail : String) : List ChatMessage :=
  db.chatMessages.filter
    (fun m => m.user_email == userEmail && now - 24 * 3600 ≤ m.created_at)

/-- Embedding of `generate_digest_summary` (server.py:2170-2212): gather
the last 24 hours of messages, return `None` when there are none, else ask
the LLM (whose failure is caught and becomes `None`). -/
def generateDigestSummary (db : Db) (env : DigestEnv) (userEmail : String) :
    Option String :=
  if (digestMessages db env.now userEmail).isEmpty then none
  else env.llmSummary

/-- Embedding of `run_digest_for_user` (server.py:2215-2243): when the
summary is falsy, skip and return `False`; otherwise deliver via Telegram
when a paired chat id exists (delivery outcome recorded, `False` when no
chat id), append a history record regardless of the delivery outcome, and
return `True`. -/
def runDigestForUser (db : Db) (env : DigestEnv) (userEmail : String) :
    Bool × Db :=
  let summary := generateDigestSummary db env userEmail
  if !pyTruthy summary then (false, db)
  else
    let fullMessage := digestHeader env.nowStr ++ summary.getD ""
    let sent : Bool :=
      if pyTruthy env.pairedTelegramId then env.telegramSendOk else false
    let recd : DigestRecord :=
      { user_email := userEmail, content := fullMessage,
        message_count := (digestMessages db env.now userEmail).length,
        telegram_sent := sent, sent_at := env.nowStr }
    (true, { db with digestHistory := db.digestHistory ++ [recd] })

/-- Embedding of the `POST /api/digest/trigger` endpoint
`trigger_digest_now` (server.py:2303-2309). -/
def triggerDigestNow (db : Db) (env : DigestEnv) (req : HttpRequest)
    (now : Int) : Except HTTPError (Bool × String) × Db :=
  match requireAuth db req now with
  | .error e => (.error e, db)
  | .ok user =>
    let (sent, db1) := runDigestForUser db env user.email
    if sent then (.ok (true, "Digest sent to your Telegram!"), db1)
    else (.ok (false, "No messages in the last 24h to summarise - chat with Neo first!"), db1)

-- ============== Fixtures for concrete evaluation ==============

/-- A concrete user for closed instantiations. -/
def sampleUser : User :=
  { user_id := "u1", email := "alice@example.com", name := "Alice" }

/-- A live session for `sampleUser` (expires at epoch second 1000, aware). -/
def sampleSession : Session :=
  { session_token := "tok1", user_id := "u1",
    expires_at := .dt { wall := 1000, tzOffset := some 0 } }

/-- A database holding one user with one live session, nothing else. -/
def sampleDb : Db :=
  { instanceOwner := none, gatewayRecord := none, sessions := [sampleSession],
    users := [sampleUser], chatMessages := [], digestHistory := [] }

/-- A request presenting the live session cookie. -/
def sampleReq : HttpRequest :=
  { cookieSessionToken := some "tok1", authHeader := none }

/-- A baseline oracle environment for closed instantiations. -/
def sampleEnv : Env :=
  { supStatus := true, supStartOk := true, supStopOk := true,
    supStatusAfterWait := true, clawdbotCmd := true, installOk := true,
    clawdbotCmdAfterInstall := true, dbReadOk := true,
    probe := fun _ => false, freshToken := "f", now := "T0" }

/-- A baseline world: boot in-memory state, `sampleDb`, no config file,
no env hand-off file. -/
def sampleWorld : World :=
  { gatewayState := GatewayState.init, db := sampleDb, disk := none,
    envFile := false }

/-- A request presenting no credential at all. -/
def noCredReq : HttpRequest := { cookieSessionToken := none, authHeader := none }

/-- A config file holding the established token `"t0"`. -/
def cfgT0 : ConfigFile := { gatewayToken := some "t0", provider := none }

/-- An instance-owner record for `sampleUser`. -/
def ownerA : InstanceOwner :=
  { user_id := "u1", email := "alice@example.com", name := "Alice", locked_at := 7 }

/-- A second, different user. -/
def userB : User := { user_id := "u2", email := "bob@example.com", name := "Bob" }

/-- An instance-owner record for `userB`. -/
def ownerB : InstanceOwner :=
  { user_id := "u2", email := "bob@example.com", name := "Bob", locked_at := 7 }

/-- A session for `sampleUser` stored as a naive ISO string that expired at
epoch second 100. -/
def expiredSession : Session :=
  { session_token := "tok1", user_id := "u1",
    expires_at := .isoStr { wall := 100, tzOffset := none } }

/-- `sampleDb` with the expired session in place of the live one. -/
def expiredDb : Db := { sampleDb with sessions := [expiredSession] }

/-- `sampleDb` with the instance locked to `sampleUser`. -/
def lockedDbA : Db := { sampleDb with instanceOwner := some ownerA }

/-- `sampleDb` with the instance locked to `userB`. -/
def lockedDbB : Db := { sampleDb with instanceOwner := some ownerB }

/-- An in-memory state carrying only a token. -/
def gsTok : GatewayState := { GatewayState.init with token := some "t1" }

/-- An in-memory state carrying a token and an owner. -/
def gsTokOwned : GatewayState :=
  { GatewayState.init with token := some "t1", owner_user_id := some "u2" }

/-- A WebSocket request with no credential. -/
def noCredWs : WsRequest := { cookieSessionToken := none, authHeader := none }

/-- A WebSocket request presenting a session cookie. -/
def credWs : WsRequest := { cookieSessionToken := some "tok1", authHeader := none }

-- ============== Helper lemmas ==============

/-- The code's expiry normalization computes exactly the stored value's UTC
instant, for every serialized form (datetime or ISO string, aware or naive). -/
theorem normalizeExpiry_absSeconds (e : StoredExpiry) :
    (normalizeExpiry e).absSeconds = e.utcInstant := by
  cases e <;> rename_i d <;> cases h : d.tzOffset <;>
    simp [normalizeExpiry, PyDatetime.absSeconds, StoredExpiry.utcInstant, h]

/-- A nonempty string is truthy. -/
theorem isEmpty_false_of_ne {t : String} (h : t ≠ "") : t.isEmpty = false := by
  cases he : t.isEmpty
  · rfl
  · exact absurd ((String.isEmpty_iff t).mp he) h

-- ============== C4 ==============

/-- C4 (amended): token handling of the config materializer.  When
`force_new_token=false` and the on-disk config holds a (nonempty) token,
that token is returned and rewritten unchanged regardless of the provider
or caller-supplied token, so repeated calls are stable once a token is
established.  When `force_new_token=true` the established token is
discarded and the caller-supplied token — or the freshly generated one when
the caller supplies none — is used and returned; no call with
`force_new_token=false` changes an established token. -/
theorem create_config_token_stability :
    (∀ (c : ConfigFile) (fresh : String) (tok : Option String)
       (provider : String) (t : String),
       c.gatewayToken = some t → t ≠ "" →
       (createMoltbotConfig (some c) fresh tok provider false).1 = t ∧
       (createMoltbotConfig (some c) fresh tok provider false).2.gatewayToken
         = some t) ∧
    (∀ (disk : Option ConfigFile) (fresh fresh' : String)
       (tok tok' : Option String) (provider provider' : String),
       (createMoltbotConfig disk fresh tok provider false).1 ≠ "" →
       (createMoltbotConfig
          (some (createMoltbotConfig disk fresh tok provider false).2)
          fresh' tok' provider' false).1 =
         (createMoltbotConfig disk fresh tok provider false).1) ∧
    (∀ (disk : Option ConfigFile) (fresh : String) (provider : String),
       (createMoltbotConfig disk fresh none provider true).1 = fresh) ∧
    (∀ (disk : Option ConfigFile) (fresh tok : String) (provider : String),
       tok ≠ "" →
       (createMoltbotConfig disk fresh (some tok) provider true).1 = tok) := by
  have h1 : ∀ (c : ConfigFile) (fresh : String) (tok : Option String)
      (provider : String) (t : String),
      c.gatewayToken = some t → t ≠ "" →
      (createMoltbotConfig (some c) fresh tok provider false).1 = t ∧
      (createMoltbotConfig (some c) fresh tok provider false).2.gatewayToken
        = some t := by
    intro c fresh tok provider t hc hne
    simp [createMoltbotConfig, pyStrOr, hc, isEmpty_false_of_ne hne]
  refine ⟨h1, ?_, ?_, ?_⟩
  · intro disk fresh fresh' tok tok' provider provider' hne
    exact (h1 _ fresh' tok' provider' _ rfl hne).1
  · intro disk fresh provider
    simp [createMoltbotConfig, pyStrOr]
  · intro disk fresh tok provider hne
    simp [createMoltbotConfig, pyStrOr, isEmpty_false_of_ne hne]

/-- Closed instantiation of `create_config_token_stability`. -/
theorem create_config_token_stability_witness :
    ((createMoltbotConfig (some cfgT0) "f" (some "other") "openai" false).1 = "t0" ∧
     (createMoltbotConfig (some cfgT0) "f" (some "other") "openai" false).2.gatewayToken = some "t0") ∧
    (createMoltbotConfig none "f" none "emergent" true).1 = "f" ∧
    (createMoltbotConfig (some cfgT0) "f" (some "t1") "emergent" true).1 = "t1" :=
  ⟨create_config_token_stability.1 cfgT0 "f" (some "other") "openai" "t0" rfl
     (by decide),
   create_config_token_stability.2.2.1 none "f" "emergent",
   create_config_token_stability.2.2.2 (some cfgT0) "f" "t1" "emergent" (by decide)⟩

/-- C4, counterexample to the claim as stated: with `force_new_token=true`
and a caller-supplied token, the token used is the caller's, not the newly
generated one (`generate_token()` here yields `"f"`), so "a newly generated
high-entropy token is used" fails at this input. -/
theorem create_config_force_counterexample :
    (createMoltbotConfig (some cfgT0) "f" (some "t1") "emergent" true).1 = "t1" ∧
    ("t1" : String) ≠ "f" := by
  constructor
  · rfl
  · decide

-- ============== C6 ==============

/-- C6: the instance-owner latch.  A `$setOnInsert` upsert never modifies
an existing record (so a second `set_instance_owner` call by a different
user leaves the original intact) and creates the record when absent; once
the record exists the access check admits exactly the matching `user_id`
and `require_auth` rejects every other authenticated user with 403, while
before the record exists every authenticated user passes. -/
theorem instance_owner_latch_and_guard :
    (∀ (o : InstanceOwner) (u : User) (now : Int),
       setInstanceOwner (some o) u now = some o) ∧
    (∀ (u : User) (now : Int),
       setInstanceOwner none u now =
         some { user_id := u.user_id, email := u.email, name := u.name,
                locked_at := now }) ∧
    (∀ (db : Db) (o : InstanceOwner) (u : User), db.instanceOwner = some o →
       (checkInstanceAccess db u = true ↔ o.user_id = u.user_id)) ∧
    (∀ (db : Db) (u : User), db.instanceOwner = none →
       checkInstanceAccess db u = true) ∧
    (∀ (db : Db) (req : HttpRequest) (now : Int) (u : User) (o : InstanceOwner),
       getCurrentUser db req now = some u → db.instanceOwner = some o →
       o.user_id ≠ u.user_id →
       requireAuth db req now =
         .error { status := 403,
                  detail := "This instance is locked to another user. Access denied." }) ∧
    (∀ (db : Db) (req : HttpRequest) (now : Int) (u : User),
       getCurrentUser db req now = some u → checkInstanceAccess db u = true →
       requireAuth db req now = .ok u) := by
  refine ⟨fun o u now => rfl, fun u now => rfl, ?_, ?_, ?_, ?_⟩
  · intro db o u ho
    simp [checkInstanceAccess, ho]
  · intro db u ho
    simp [checkInstanceAccess, ho]
  · intro db req now u o hu ho hne
    have hacc : checkInstanceAccess db u = false := by
      simp only [checkInstanceAccess, ho, beq_eq_false_iff_ne, ne_eq]
      exact hne
    simp [requireAuth, hu, hacc]
  · intro db req now u hu hacc
    simp [requireAuth, hu, hacc]

/-- Closed instantiation of `instance_owner_latch_and_guard`. -/
theorem instance_owner_latch_and_guard_witness :
    setInstanceOwner (some ownerA) userB 9 = some ownerA ∧
    (checkInstanceAccess lockedDbA sampleUser = true ↔ ownerA.user_id = sampleUser.user_id) ∧
    checkInstanceAccess sampleDb sampleUser = true ∧
    requireAuth lockedDbB sampleReq 500 =
      .error { status := 403,
               detail := "This instance is locked to another user. Access denied." } ∧
    requireAuth sampleDb sampleReq 500 = .ok sampleUser :=
  ⟨instance_owner_latch_and_guard.1 ownerA userB 9,
   instance_owner_latch_and_guard.2.2.1 lockedDbA ownerA sampleUser rfl,
   instance_owner_latch_and_guard.2.2.2.1 sampleDb sampleUser rfl,
   instance_owner_latch_and_guard.2.2.2.2.1 lockedDbB sampleReq 500 sampleUser
     ownerB (by decide) rfl (by decide),
   instance_owner_latch_and_guard.2.2.2.2.2 sampleDb sampleReq 500 sampleUser
     (by decide) (by decide)⟩

-- ============== C8 ==============

/-- C8: a session whose stored `expires_at` denotes a UTC instant strictly
before now — in any serialized form: datetime or ISO string, aware or naive
(naive read as UTC) — resolves to no user, identically to presenting no
credential at all. -/
theorem expired_session_is_no_session
    (db : Db) (req : HttpRequest) (now : Int) (tk : String) (sess : Session)
    (hex : extractSessionToken req = some tk) (htk : tk ≠ "")
    (hfind : db.sessions.find? (fun s => s.session_token == tk) = some sess)
    (hpast : sess.expires_at.utcInstant < now) :
    getCurrentUser db req now = none ∧
    getCurrentUser db { cookieSessionToken := none, authHeader := none } now
      = none := by
  constructor
  · have hcmp : (normalizeExpiry sess.expires_at).absSeconds < now := by
      rw [normalizeExpiry_absSeconds]; exact hpast
    simp [getCurrentUser, hex, pyTruthy, isEmpty_false_of_ne htk, hfind, hcmp]
  · simp [getCurrentUser, extractSessionToken, pyTruthy]

/-- Closed instantiation of `expired_session_is_no_session`: a naive
ISO-string expiry at epoch second 100 with the clock at 200. -/
theorem expired_session_is_no_session_witness :
    getCurrentUser expiredDb sampleReq 200 = none ∧
    getCurrentUser expiredDb noCredReq 200 = none :=
  expired_session_is_no_session expiredDb sampleReq 200 "tok1" expiredSession
    (by decide) (by decide) (by decide) (by decide)

-- ============== C10 ==============

/-- C10: the WebSocket proxy endpoint never resolves a session and never
consults ownership: its outcome is the same for every inbound request and
for every value of the in-memory owner; when the supervisor reports the
gateway not running it closes with code 1013, and when running it opens
the upstream connection with the current (nonempty) gateway token attached
as the `X-Auth-Token` header on behalf of any client. -/
theorem websocket_proxy_ungated :
    (∀ (gs : GatewayState) (req : WsRequest),
       websocketProxy false gs req = .closed 1013 "OpenClaw not running") ∧
    (∀ (gs : GatewayState) (req : WsRequest) (t : String),
       gs.token = some t → t ≠ "" →
       websocketProxy true gs req = .proxied (some t)) ∧
    (∀ (running : Bool) (gs : GatewayState) (req req' : WsRequest),
       websocketProxy running gs req = websocketProxy running gs req') ∧
    (∀ (running : Bool) (gs : GatewayState) (req : WsRequest)
       (o : Option String),
       websocketProxy running { gs with owner_user_id := o } req =
         websocketProxy running gs req) := by
  refine ⟨fun gs req => rfl, ?_, fun running gs req req' => rfl, ?_⟩
  · intro gs req t ht hne
    simp [websocketProxy, ht, pyTruthy, isEmpty_false_of_ne hne]
  · intro running gs req o
    simp [websocketProxy]

/-- Closed instantiation of `websocket_proxy_ungated`. -/
theorem websocket_proxy_ungated_witness :
    websocketProxy false GatewayState.init noCredWs =
      .closed 1013 "OpenClaw not running" ∧
    websocketProxy true gsTok credWs = .proxied (some "t1") ∧
    websocketProxy true gsTokOwned noCredWs =
      websocketProxy true gsTok noCredWs :=
  ⟨websocket_proxy_ungated.1 GatewayState.init noCredWs,
   websocket_proxy_ungated.2.1 gsTok credWs "t1" rfl (by decide),
   websocket_proxy_ungated.2.2.2 true gsTok noCredWs (some "u2")⟩

-- ============== C7 ==============

/-- Clearing the flag leaves no record claiming `should_run`, whether or
not a record existed. -/
theorem effectiveShouldRun_clearShouldRun (now : String) (db : Db) :
    effectiveShouldRun (clearShouldRun now db) = false := by
  cases h : db.gatewayRecord <;> simp [effectiveShouldRun, clearShouldRun, h]

/-- C7: an authenticated stop request while the supervisor reports the
gateway not running returns success, never invokes the supervisor's stop
call, and leaves the durable `should_run` flag reading false — also when no
durable gateway record exists at all, since the flag-clearing write has no
upsert and an absent record reads as `should_run=false`. -/
theorem stop_idempotent_when_not_running
    (env : Env) (w : World) (req : HttpRequest) (now : Int) (user : User)
    (hauth : requireAuth w.db req now = .ok user)
    (hnotrun : env.supStatus = false) :
    (stopMoltbot env w req now).1 = .ok "OpenClaw is not running" ∧
    SupCall.stop ∉ (stopMoltbot env w req now).2.2 ∧
    effectiveShouldRun (stopMoltbot env w req now).2.1.db = false := by
  have hres : stopMoltbot env w req now =
      (.ok "OpenClaw is not running",
       { w with db := clearShouldRun env.now w.db }, [.status]) := by
    simp [stopMoltbot, hauth, hnotrun]
  rw [hres]
  exact ⟨rfl, by simp, effectiveShouldRun_clearShouldRun env.now w.db⟩

/-- Closed instantiation of `stop_idempotent_when_not_running`, on a world
with no durable gateway record at all. -/
theorem stop_idempotent_when_not_running_witness :
    (stopMoltbot { sampleEnv with supStatus := false } sampleWorld sampleReq
        500).1 = .ok "OpenClaw is not running" ∧
    SupCall.stop ∉ (stopMoltbot { sampleEnv with supStatus := false }
        sampleWorld sampleReq 500).2.2 ∧
    effectiveShouldRun (stopMoltbot { sampleEnv with supStatus := false }
        sampleWorld sampleReq 500).2.1.db = false :=
  stop_idempotent_when_not_running { sampleEnv with supStatus := false }
    sampleWorld sampleReq 500 sampleUser rfl rfl

-- ============== C5 ==============

/-- C5: for a stop request while the gateway is running, a requester other
than the in-memory owner is rejected with 403 and the world is unchanged;
the owner's stop succeeds, clears the env hand-off file, leaves the durable
`should_run` flag reading false, resets every in-memory field to absent,
and leaves the durable instance-owner record untouched. -/
theorem stop_owner_only_and_frame
    (env : Env) (w : World) (req : HttpRequest) (now : Int) (user : User)
    (hauth : requireAuth w.db req now = .ok user)
    (hrun : env.supStatus = true) :
    (w.gatewayState.owner_user_id ≠ some user.user_id →
       (stopMoltbot env w req now).1 =
         .error { status := 403, detail := "Only the owner can stop OpenClaw" } ∧
       (stopMoltbot env w req now).2.1 = w) ∧
    (w.gatewayState.owner_user_id = some user.user_id →
       (stopMoltbot env w req now).1 = .ok "OpenClaw stopped" ∧
       (stopMoltbot env w req now).2.1.envFile = false ∧
       effectiveShouldRun (stopMoltbot env w req now).2.1.db = false ∧
       (stopMoltbot env w req now).2.1.gatewayState = GatewayState.init ∧
       (stopMoltbot env w req now).2.1.db.instanceOwner = w.db.instanceOwner) := by
  constructor
  · intro hne
    have hbeq : (w.gatewayState.owner_user_id == some user.user_id) = false :=
      beq_eq_false_iff_ne.mpr hne
    simp [stopMoltbot, hauth, hrun, hbeq]
  · intro heq
    have hbeq : (w.gatewayState.owner_user_id == some user.user_id) = true :=
      beq_iff_eq.mpr heq
    have hres : stopMoltbot env w req now =
        (.ok "OpenClaw stopped",
         { w with db := clearShouldRun env.now w.db, envFile := false,
                  gatewayState := GatewayState.init },
         [.status, .stop]) := by
      simp [stopMoltbot, hauth, hrun, hbeq]
    rw [hres]
    exact ⟨rfl, rfl, effectiveShouldRun_clearShouldRun env.now w.db, rfl, rfl⟩

/-- An in-memory state owned by `sampleUser`. -/
def gsOwnedA : GatewayState :=
  { GatewayState.init with owner_user_id := some "u1" }

/-- An in-memory state owned by `userB`. -/
def gsOwnedB : GatewayState :=
  { GatewayState.init with owner_user_id := some "u2" }

/-- `sampleWorld` with the gateway owned by `sampleUser`. -/
def worldOwnedA : World := { sampleWorld with gatewayState := gsOwnedA }

/-- `sampleWorld` with the gateway owned by `userB`. -/
def worldOwnedB : World := { sampleWorld with gatewayState := gsOwnedB }

/-- Closed instantiation of `stop_owner_only_and_frame`: `sampleUser` is
rejected while `userB` owns the gateway, and succeeds with the full frame
condition when owning it. -/
theorem stop_owner_only_and_frame_witness :
    ((stopMoltbot sampleEnv worldOwnedB sampleReq 500).1 =
       .error { status := 403, detail := "Only the owner can stop OpenClaw" } ∧
     (stopMoltbot sampleEnv worldOwnedB sampleReq 500).2.1 = worldOwnedB) ∧
    ((stopMoltbot sampleEnv worldOwnedA sampleReq 500).1 = .ok "OpenClaw stopped" ∧
     (stopMoltbot sampleEnv worldOwnedA sampleReq 500).2.1.envFile = false ∧
     effectiveShouldRun (stopMoltbot sampleEnv worldOwnedA sampleReq 500).2.1.db = false ∧
     (stopMoltbot sampleEnv worldOwnedA sampleReq 500).2.1.gatewayState = GatewayState.init ∧
     (stopMoltbot sampleEnv worldOwnedA sampleReq 500).2.1.db.instanceOwner =
       worldOwnedA.db.instanceOwner) :=
  ⟨(stop_owner_only_and_frame sampleEnv worldOwnedB sampleReq 500 sampleUser
      rfl rfl).1 (by decide),
   (stop_owner_only_and_frame sampleEnv worldOwnedA sampleReq 500 sampleUser
      rfl rfl).2 rfl⟩

-- ============== C1 ==============

/-- When the supervisor reports the gateway already running,
`start_gateway_process` takes the recovery path and returns a token. -/
theorem startGatewayProcess_ok_of_running
    (env : Env) (w : World) (apiKey : Option String) (provider : String)
    (uid : String) (hrun : env.supStatus = true) :
    ∃ t w' c, startGatewayProcess env w apiKey provider uid = (.ok t, w', c) := by
  cases hc : pyTruthy (w.disk.bind fun c => c.gatewayToken) <;>
    simp [startGatewayProcess, hrun, hc]

/-- C1: for an authenticated, validation-passing start request, when the
supervisor reports the gateway running and the in-memory owner differs from
the requester, the endpoint rejects with the 403 conflict error and leaves
the world unchanged; when the in-memory owner is the requester, the request
is not rejected on this ground — it returns a token. -/
theorem start_ownership_conflict
    (env : Env) (w : World) (req : HttpRequest) (now : Int) (user : User)
    (provider : String) (apiKey : Option String)
    (hauth : requireAuth w.db req now = .ok user)
    (hprov : provider = "emergent" ∨ provider = "anthropic" ∨ provider = "openai")
    (hkey : provider = "anthropic" ∨ provider = "openai" →
            pyTruthy apiKey = true ∧ 10 ≤ (apiKey.getD "").length)
    (hrun : env.supStatus = true) :
    (w.gatewayState.owner_user_id ≠ some user.user_id →
       (startMoltbot env w req now provider apiKey).1 = .error ownershipConflictError ∧
       (startMoltbot env w req now provider apiKey).2.1 = w) ∧
    (w.gatewayState.owner_user_id = some user.user_id →
       ∃ t, (startMoltbot env w req now provider apiKey).1 = .ok t) := by
  have hb1 : (provider == "emergent" || provider == "anthropic"
      || provider == "openai") = true := by
    rcases hprov with h | h | h <;> subst h <;> decide
  have hb2 : ((provider == "anthropic" || provider == "openai")
      && (!pyTruthy apiKey || decide ((apiKey.getD "").length < 10))) = false := by
    rcases hprov with h | h | h <;> subst h
    · simp
    · obtain ⟨hk1, hk2⟩ := hkey (Or.inl rfl)
      simp [hk1, Nat.not_lt.mpr hk2]
    · obtain ⟨hk1, hk2⟩ := hkey (Or.inr rfl)
      simp [hk1, Nat.not_lt.mpr hk2]
  constructor
  · intro hne
    have hbeq : (w.gatewayState.owner_user_id == some user.user_id) = false :=
      beq_eq_false_iff_ne.mpr hne
    simp [startMoltbot, hauth, hb1, hb2, hrun, hbeq]
  · intro heq
    have hbeq : (w.gatewayState.owner_user_id == some user.user_id) = true :=
      beq_iff_eq.mpr heq
    obtain ⟨t, w', c, hok⟩ :=
      startGatewayProcess_ok_of_running env w apiKey provider user.user_id hrun
    refine ⟨t, ?_⟩
    simp [startMoltbot, hauth, hb1, hb2, hrun, hbeq, hok]

/-- Closed instantiation of `start_ownership_conflict`: with the gateway
running and owned by `userB`, `sampleUser`'s start is rejected with the
conflict error and nothing changes; with `sampleUser` owning it, the start
returns a token. -/
theorem start_ownership_conflict_witness :
    ((startMoltbot sampleEnv worldOwnedB sampleReq 500 "emergent" none).1 =
       .error ownershipConflictError ∧
     (startMoltbot sampleEnv worldOwnedB sampleReq 500 "emergent" none).2.1 =
       worldOwnedB) ∧
    (∃ t, (startMoltbot sampleEnv worldOwnedA sampleReq 500 "emergent" none).1 =
       .ok t) :=
  ⟨(start_ownership_conflict sampleEnv worldOwnedB sampleReq 500 sampleUser
      "emergent" none rfl (Or.inl rfl) (by simp) rfl).1 (by decide),
   (start_ownership_conflict sampleEnv worldOwnedA sampleReq 500 sampleUser
      "emergent" none rfl (Or.inl rfl) (by simp) rfl).2 rfl⟩

-- ============== C2 ==============

/-- An environment for a fresh start attempt whose readiness probe never
answers 200: supervisor initially not running, binary present, supervisor
accepts the start, every poll fails, supervisor still reports running after
the window. -/
def cexEnvC2 : Env := { sampleEnv with supStatus := false }

/-- C2 (amended): on a fresh start attempt (supervisor not running, binary
present, supervisor accepts the start) whose readiness probe never returns
200 within the 60-attempt window, the start fails with an error reported to
the caller, the database — in particular the durable record and its
`should_run` flag — is untouched, and the in-memory runtime state retains
the fields the attempt populated before the wait (the token is present, the
owner is the requester; it is not reset toward the all-absent stopped
shape).  Moreover, on any fresh start attempt the durable record changes
only when some readiness poll inside the window succeeded. -/
theorem start_readiness_timeout
    (env : Env) (w : World) (apiKey : Option String) (provider : String)
    (uid : String)
    (hnr : env.supStatus = false)
    (hcmd : env.clawdbotCmd = true)
    (hstart : env.supStartOk = true)
    (hprobe : ∀ i, i < 60 → env.probe i = false) :
    (∃ e, (startGatewayProcess env w apiKey provider uid).1 = .error e) ∧
    (startGatewayProcess env w apiKey provider uid).2.1.db = w.db ∧
    (startGatewayProcess env w apiKey provider uid).2.1.gatewayState.owner_user_id
      = some uid ∧
    (startGatewayProcess env w apiKey provider uid).2.1.gatewayState.token ≠ none ∧
    (∀ (env' : Env) (w' : World) (apiKey' : Option String) (provider' : String)
       (uid' : String), env'.supStatus = false →
       (startGatewayProcess env' w' apiKey' provider' uid').2.1.db.gatewayRecord
         ≠ w'.db.gatewayRecord →
       ∃ i, i < 60 ∧ env'.probe i = true) := by
  have hready : firstReady env.probe = none := by
    unfold firstReady
    rw [List.find?_eq_none]
    intro x hx
    simp [hprobe x (List.mem_range.mp hx)]
  have honly : ∀ (env' : Env) (w' : World) (apiKey' : Option String)
      (provider' : String) (uid' : String), env'.supStatus = false →
      (startGatewayProcess env' w' apiKey' provider' uid').2.1.db.gatewayRecord
        ≠ w'.db.gatewayRecord →
      ∃ i, i < 60 ∧ env'.probe i = true := by
    intro env' w' apiKey' provider' uid' hnr' hchg
    rcases hr : firstReady env'.probe with _ | i
    · exfalso
      apply hchg
      cases h1 : env'.clawdbotCmd <;> cases h2 : env'.installOk <;>
        cases h3 : env'.clawdbotCmdAfterInstall <;> cases h4 : env'.supStartOk <;>
        cases h5 : env'.supStatusAfterWait <;>
        simp [startGatewayProcess, hnr', hr, h1, h2, h3, h4, h5]
    · have hmem := List.mem_of_find?_eq_some hr
      have hp := List.find?_some hr
      exact ⟨i, List.mem_range.mp hmem, hp⟩
  cases hw : env.supStatusAfterWait
  · refine ⟨⟨{ status := 500, detail := "Gateway failed to start via supervisor" }, ?_⟩,
      ?_, ?_, ?_, honly⟩ <;>
      simp [startGatewayProcess, hnr, hcmd, hstart, hready, hw]
  · refine ⟨⟨{ status := 500, detail := "Gateway did not become ready in time" }, ?_⟩,
      ?_, ?_, ?_, honly⟩ <;>
      simp [startGatewayProcess, hnr, hcmd, hstart, hready, hw]

/-- Closed instantiation of `start_readiness_timeout`. -/
theorem start_readiness_timeout_witness :
    (∃ e, (startGatewayProcess cexEnvC2 sampleWorld none "emergent" "u1").1
       = .error e) ∧
    (startGatewayProcess cexEnvC2 sampleWorld none "emergent" "u1").2.1.db
      = sampleWorld.db ∧
    (startGatewayProcess cexEnvC2 sampleWorld none "emergent"
      "u1").2.1.gatewayState.owner_user_id = some "u1" ∧
    (startGatewayProcess cexEnvC2 sampleWorld none "emergent"
      "u1").2.1.gatewayState.token ≠ none :=
  have h := start_readiness_timeout cexEnvC2 sampleWorld none "emergent" "u1"
    rfl rfl rfl (by decide)
  ⟨h.1, h.2.1, h.2.2.1, h.2.2.2.1⟩

/-- C2, counterexample to the claim as stated: a concrete fresh start whose
probe never succeeds does fail and leaves the durable record unwritten, but
the in-memory runtime state does not revert toward the stopped (all-absent)
shape — the token and owner fields remain populated. -/
theorem start_readiness_timeout_counterexample :
    (startGatewayProcess cexEnvC2 sampleWorld none "emergent" "u1").1 =
      .error { status := 500, detail := "Gateway did not become ready in time" } ∧
    (startGatewayProcess cexEnvC2 sampleWorld none "emergent"
      "u1").2.1.db.gatewayRecord = none ∧
    (startGatewayProcess cexEnvC2 sampleWorld none "emergent"
      "u1").2.1.gatewayState ≠ GatewayState.init :=
  ⟨rfl, rfl, by decide⟩

-- ============== C3 ==============

/-- A durable record with `should_run=true`, owned by `sampleUser`. -/
def recRun : DurableRecord :=
  { should_run := true, owner_user_id := "u1", provider := "emergent",
    token := "t0", started_at := "T0", updated_at := "T0" }

/-- A durable record with `should_run=false`. -/
def recStop : DurableRecord := { recRun with should_run := false }

/-- `sampleDb` holding `recRun`. -/
def dbRecRun : Db := { sampleDb with gatewayRecord := some recRun }

/-- `sampleDb` holding `recStop`. -/
def dbRecStop : Db := { sampleDb with gatewayRecord := some recStop }

/-- A world holding `recRun` and an on-disk config file. -/
def worldRecDisk : World :=
  { sampleWorld with db := dbRecRun, disk := some cfgT0 }

/-- A world holding `recRun` and no config file. -/
def worldRec : World := { sampleWorld with db := dbRecRun }

/-- A world holding `recStop`. -/
def worldRecStop : World := { sampleWorld with db := dbRecStop }

/-- `sampleEnv` with the supervisor reporting not-running. -/
def envStopped : Env := { sampleEnv with supStatus := false }

/-- `envStopped` whose supervisor start call fails. -/
def envStartFail : Env := { envStopped with supStartOk := false }

/-- C3: boot-time reconciliation, four exhaustive cases.  (a) Supervisor
reports running: the controller adopts — token from the on-disk config
file, provider/owner/started_at from the durable record — the database is
untouched and the supervisor is neither started nor stopped.  (b) Not
running with a durable record whose `should_run=true`: the env hand-off is
written and the supervisor's start invoked; on success the in-memory state
is repopulated from the record, on failure the in-memory state and database
are unchanged and boot returns normally.  (c) Not running with
`should_run=false`: nothing changes, no start.  (d) No durable record: no
start is ever invoked, and with the supervisor not running nothing
changes. -/
theorem startup_reconciliation :
    (∀ (env : Env) (w : World) (recd : DurableRecord) (f : ConfigFile),
       env.dbReadOk = true → env.supStatus = true →
       w.db.gatewayRecord = some recd → w.disk = some f →
       (startupEvent env w).1.gatewayState =
         { token := f.gatewayToken, provider := some recd.provider,
           started_at := some recd.started_at,
           owner_user_id := some recd.owner_user_id } ∧
       (startupEvent env w).1.db = w.db ∧
       SupCall.start ∉ (startupEvent env w).2 ∧
       SupCall.stop ∉ (startupEvent env w).2) ∧
    (∀ (env : Env) (w : World) (recd : DurableRecord),
       env.dbReadOk = true → env.supStatus = false →
       w.db.gatewayRecord = some recd → recd.should_run = true →
       (startupEvent env w).1.envFile = true ∧
       SupCall.start ∈ (startupEvent env w).2 ∧
       (env.supStartOk = true → recd.token ≠ "" →
          (startupEvent env w).1.gatewayState =
            { token := some recd.token, provider := some recd.provider,
              started_at := some recd.started_at,
              owner_user_id := some recd.owner_user_id }) ∧
       (env.supStartOk = false →
          (startupEvent env w).1.gatewayState = w.gatewayState ∧
          (startupEvent env w).1.db = w.db)) ∧
    (∀ (env : Env) (w : World) (recd : DurableRecord),
       env.dbReadOk = true → env.supStatus = false →
       w.db.gatewayRecord = some recd → recd.should_run = false →
       (startupEvent env w).1 = w ∧
       SupCall.start ∉ (startupEvent env w).2) ∧
    (∀ (env : Env) (w : World),
       w.db.gatewayRecord = none →
       SupCall.start ∉ (startupEvent env w).2 ∧
       (env.supStatus = false → (startupEvent env w).1 = w)) := by
  refine ⟨?_, ?_, ?_, ?_⟩
  · intro env w recd f hdb hrun hrec hdisk
    refine ⟨?_, ?_, ?_, ?_⟩ <;> simp [startupEvent, hdb, hrun, hrec, hdisk]
  · intro env w recd hdb hnr hrec hsr
    refine ⟨?_, ?_, ?_, ?_⟩
    · cases hso : env.supStartOk <;>
        simp [startupEvent, hdb, hnr, hrec, hsr, hso]
    · cases hso : env.supStartOk <;>
        simp [startupEvent, hdb, hnr, hrec, hsr, hso]
    · intro hso hne
      simp [startupEvent, hdb, hnr, hrec, hsr, hso, pyTruthy,
            isEmpty_false_of_ne hne]
    · intro hso
      constructor <;> simp [startupEvent, hdb, hnr, hrec, hsr, hso]
  · intro env w recd hdb hnr hrec hsr
    constructor <;> simp [startupEvent, hdb, hnr, hrec, hsr]
  · intro env w hrec
    constructor
    · cases hdb : env.dbReadOk <;> cases hrun : env.supStatus <;>
        simp [startupEvent, hdb, hrun, hrec]
    · intro hnr
      cases hdb : env.dbReadOk <;> simp [startupEvent, hdb, hnr, hrec]

/-- Closed instantiation of `startup_reconciliation`, one fact per case. -/
theorem startup_reconciliation_witness :
    (startupEvent sampleEnv worldRecDisk).1.gatewayState =
      { token := cfgT0.gatewayToken, provider := some recRun.provider,
        started_at := some recRun.started_at,
        owner_user_id := some recRun.owner_user_id } ∧
    (startupEvent envStopped worldRec).1.envFile = true ∧
    SupCall.start ∈ (startupEvent envStopped worldRec).2 ∧
    (startupEvent envStopped worldRec).1.gatewayState =
      { token := some recRun.token, provider := some recRun.provider,
        started_at := some recRun.started_at,
        owner_user_id := some recRun.owner_user_id } ∧
    (startupEvent envStartFail worldRec).1.gatewayState = worldRec.gatewayState ∧
    (startupEvent envStopped worldRecStop).1 = worldRecStop ∧
    SupCall.start ∉ (startupEvent envStopped sampleWorld).2 ∧
    (startupEvent envStopped sampleWorld).1 = sampleWorld :=
  have ha := startup_reconciliation.1 sampleEnv worldRecDisk recRun cfgT0
    rfl rfl rfl rfl
  have hb := startup_reconciliation.2.1 envStopped worldRec recRun rfl rfl rfl rfl
  have hbf := startup_reconciliation.2.1 envStartFail worldRec recRun rfl rfl rfl rfl
  have hc := startup_reconciliation.2.2.1 envStopped worldRecStop recStop
    rfl rfl rfl rfl
  have hd := startup_reconciliation.2.2.2 envStopped sampleWorld rfl
  ⟨ha.1, hb.1, hb.2.1, hb.2.2.1 rfl (by decide), (hbf.2.2.2 rfl).1, hc.1,
   hd.1, hd.2 rfl⟩

-- ============== C9 ==============

/-- A chat message from `sampleUser` at epoch second 90000. -/
def msgA : ChatMessage :=
  { user_email := "alice@example.com", role := "user", content := "hi",
    created_at := 90000 }

/-- `sampleDb` holding that one chat message. -/
def dbMsgs : Db := { sampleDb with chatMessages := [msgA] }

/-- A digest environment at epoch 100000 whose LLM call fails. -/
def denvFail : DigestEnv :=
  { llmSummary := none, pairedTelegramId := some "123", telegramSendOk := true,
    now := 100000, nowStr := "D0" }

/-- A digest environment at epoch 100000 whose LLM returns a summary and
whose Telegram delivery fails. -/
def denvOk : DigestEnv :=
  { llmSummary := some "S", pairedTelegramId := some "123",
    telegramSendOk := false, now := 100000, nowStr := "D0" }

/-- C9 (amended): a digest run for a user with no chat messages in the last
24 hours writes no history record, and the manual trigger then returns the
explicit "nothing to summarise" response; when messages exist and the LLM
summarization succeeds (nonempty summary), exactly one history record is
appended whose `telegram_sent` field is the delivery outcome (`false` when
no Telegram pairing exists), appended whether delivery succeeded or failed;
when the LLM summarization fails, the run skips exactly like the empty case
and appends nothing. -/
theorem digest_history_rules :
    (∀ (db : Db) (env : DigestEnv) (email : String),
       digestMessages db env.now email = [] →
       runDigestForUser db env email = (false, db)) ∧
    (∀ (db : Db) (env : DigestEnv) (req : HttpRequest) (now : Int) (user : User),
       requireAuth db req now = .ok user →
       digestMessages db env.now user.email = [] →
       triggerDigestNow db env req now =
         (.ok (false, "No messages in the last 24h to summarise - chat with Neo first!"),
          db)) ∧
    (∀ (db : Db) (env : DigestEnv) (email : String) (s : String),
       digestMessages db env.now email ≠ [] →
       env.llmSummary = some s → s ≠ "" →
       (runDigestForUser db env email).1 = true ∧
       (runDigestForUser db env email).2.digestHistory =
         db.digestHistory ++
           [{ user_email := email, content := digestHeader env.nowStr ++ s,
              message_count := (digestMessages db env.now email).length,
              telegram_sent :=
                if pyTruthy env.pairedTelegramId then env.telegramSendOk else false,
              sent_at := env.nowStr }]) ∧
    (∀ (db : Db) (env : DigestEnv) (email : String),
       env.llmSummary = none →
       (runDigestForUser db env email).2.digestHistory = db.digestHistory) := by
  have h1 : ∀ (db : Db) (env : DigestEnv) (email : String),
      digestMessages db env.now email = [] →
      runDigestForUser db env email = (false, db) := by
    intro db env email hempty
    simp [runDigestForUser, generateDigestSummary, hempty, pyTruthy]
  refine ⟨h1, ?_, ?_, ?_⟩
  · intro db env req now user hauth hempty
    simp [triggerDigestNow, hauth, h1 db env user.email hempty]
  · intro db env email s hne hllm hs
    have hsum : generateDigestSummary db env email = some s := by
      simp [generateDigestSummary, hne, hllm]
    refine ⟨?_, ?_⟩ <;>
      simp [runDigestForUser, hsum, pyTruthy, isEmpty_false_of_ne hs]
  · intro db env email hllm
    rcases hmsg : digestMessages db env.now email with _ | ⟨m, ms⟩
    · simp [h1 db env email hmsg]
    · have hsum : generateDigestSummary db env email = none := by
        simp [generateDigestSummary, hmsg, hllm]
      simp [runDigestForUser, hsum, pyTruthy]

/-- Closed instantiation of `digest_history_rules`. -/
theorem digest_history_rules_witness :
    runDigestForUser sampleDb denvOk "alice@example.com" = (false, sampleDb) ∧
    triggerDigestNow sampleDb denvOk sampleReq 500 =
      (.ok (false, "No messages in the last 24h to summarise - chat with Neo first!"),
       sampleDb) ∧
    (runDigestForUser dbMsgs denvOk "alice@example.com").1 = true ∧
    (runDigestForUser dbMsgs denvOk "alice@example.com").2.digestHistory =
      sampleDb.digestHistory ++
        [{ user_email := "alice@example.com",
           content := digestHeader "D0" ++ "S",
           message_count := (digestMessages dbMsgs 100000 "alice@example.com").length,
           telegram_sent := false, sent_at := "D0" }] :=
  have h3 := digest_history_rules.2.2.1 dbMsgs denvOk "alice@example.com" "S"
    (by decide) rfl (by decide)
  ⟨digest_history_rules.1 sampleDb denvOk "alice@example.com" rfl,
   digest_history_rules.2.1 sampleDb denvOk sampleReq 500 sampleUser rfl rfl,
   h3.1, h3.2⟩

/-- C9, counterexample to the claim as stated: messages exist in the last
24 hours, but the LLM summarization fails, and then no history record is
appended and the run reports the "nothing to summarize" outcome — so
"otherwise (messages exist) a history record is appended" fails here. -/
theorem digest_llm_failure_counterexample :
    digestMessages dbMsgs denvFail.now "alice@example.com" ≠ [] ∧
    runDigestForUser dbMsgs denvFail "alice@example.com" = (false, dbMsgs) :=
  ⟨by decide, rfl⟩

end Moltbot
